import Mathlib

/-!
Verification of the ghost-forest-watcher scalable tiling and aggregation core.

This file shallowly embeds the pipeline of
`src/ghost_forest_watcher/src/scalable_processor.py` and the vegetation-health
classifier of `src/ghost_forest_watcher/src/sam_processor.py` in Lean 4, and
settles the frozen claims about that code.

Modelling conventions:
* numpy float arithmetic is modelled exactly over `ℚ` (the NDVI difference
  values, geographic coordinates and percentages are IEEE doubles in the
  source; exact rationals model the intended real arithmetic, ignoring
  rounding at the last bit and NaN payloads);
* a 2-D raster band (and each boolean mask) is modelled as the flat list of
  its pixels, which is faithful for the element-wise numpy operations and the
  pixel counts the source performs;
* Python `int(...)` applied to the non-negative ratios in the tiling code is
  floor, i.e. `Nat` division; `max(0, a - b)` on integers is truncated `Nat`
  subtraction; `math.ceil(a / b)` for positive integers is `(a + b - 1) / b`;
* a `dict` with a fixed key set becomes a structure; a key that may be absent
  becomes an `Option` field; `d.get(k, 0)` becomes `Option.getD`;
* the `concurrent.futures` dispatch loop of `process_large_area` is modelled
  by folding over the list of future outcomes in completion order: each
  outcome is either the worker's returned result dict or a raised exception.
-/

namespace GhostForest

/-! ## Embedding of `sam_processor.ForestSAMProcessor.classify_vegetation_health`

Source: `src/ghost_forest_watcher/src/sam_processor.py`, lines 301-358.
The NDVI band (`ndvi_data[0]`) is the list of pixel values; the SAM
segmentation result enters only through its `combined_mask`, modelled as the
list of its boolean pixels.
-/

/-- `healthy_threshold = 0.1` from the source. -/
def healthy_threshold : ℚ := 1/10

/-- `stressed_threshold = -0.1` from the source. -/
def stressed_threshold : ℚ := -(1/10)

/-- `dead_threshold = -0.3` from the source. -/
def dead_threshold : ℚ := -(3/10)

/-- The SAM segmentation output, restricted to the only key
`classify_vegetation_health` reads: `masks['combined_mask']`. -/
structure SegmentationResults where
  combined_mask : List Bool
deriving DecidableEq

/-- One pixel as seen by the classifier: its NDVI value zipped with its
vegetation-mask bit. -/
abbrev HealthPixel := ℚ × Bool

/-- `healthy_veg = vegetation_areas & (ndvi_2d > healthy_threshold)`. -/
def is_healthy_pixel (p : HealthPixel) : Bool :=
  p.2 && decide (healthy_threshold < p.1)

/-- `stressed_veg = vegetation_areas & (ndvi_2d <= healthy_threshold) & (ndvi_2d > stressed_threshold)`. -/
def is_stressed_pixel (p : HealthPixel) : Bool :=
  p.2 && decide (p.1 ≤ healthy_threshold) && decide (stressed_threshold < p.1)

/-- `declining_veg = vegetation_areas & (ndvi_2d <= stressed_threshold) & (ndvi_2d > dead_threshold)`. -/
def is_declining_pixel (p : HealthPixel) : Bool :=
  p.2 && decide (p.1 ≤ stressed_threshold) && decide (dead_threshold < p.1)

/-- `dead_veg = vegetation_areas & (ndvi_2d <= dead_threshold)`. -/
def is_dead_pixel (p : HealthPixel) : Bool :=
  p.2 && decide (p.1 ≤ dead_threshold)

/-- The `masks` entry of the classifier's result dict. -/
structure HealthMasks where
  vegetation : List Bool
  healthy : List Bool
  stressed : List Bool
  declining : List Bool
  dead : List Bool
deriving DecidableEq

/-- The `statistics` entry of the classifier's result dict (five pixel counts
and four per-tile percentages, the latter computed over
`max(total_veg_pixels, 1)` in the source). -/
structure HealthStats where
  total_vegetation_pixels : Nat
  healthy_pixels : Nat
  stressed_pixels : Nat
  declining_pixels : Nat
  dead_pixels : Nat
  healthy_percent : ℚ
  stressed_percent : ℚ
  declining_percent : ℚ
  dead_percent : ℚ
deriving DecidableEq

/-- The full result dict of `classify_vegetation_health`. -/
structure ClassificationResults where
  masks : HealthMasks
  statistics : HealthStats
deriving DecidableEq

/-- `classify_vegetation_health(ndvi_data, masks)` from
`sam_processor.py:301-358`: classify the vegetation pixels of a tile into the
four health categories by thresholding the NDVI difference inside the
segmentation's combined vegetation mask, and count the pixels of each mask. -/
def classify_vegetation_health (ndvi : List ℚ) (masks : SegmentationResults) :
    ClassificationResults :=
  let vegetation_areas := masks.combined_mask
  let pix := ndvi.zip vegetation_areas
  let healthy_veg := pix.map is_healthy_pixel
  let stressed_veg := pix.map is_stressed_pixel
  let declining_veg := pix.map is_declining_pixel
  let dead_veg := pix.map is_dead_pixel
  let total_veg_pixels := vegetation_areas.count true
  { masks :=
      { vegetation := vegetation_areas
        healthy := healthy_veg
        stressed := stressed_veg
        declining := declining_veg
        dead := dead_veg }
    statistics :=
      { total_vegetation_pixels := total_veg_pixels
        healthy_pixels := healthy_veg.count true
        stressed_pixels := stressed_veg.count true
        declining_pixels := declining_veg.count true
        dead_pixels := dead_veg.count true
        healthy_percent := (healthy_veg.count true : ℚ) / (max total_veg_pixels 1) * 100
        stressed_percent := (stressed_veg.count true : ℚ) / (max total_veg_pixels 1) * 100
        declining_percent := (declining_veg.count true : ℚ) / (max total_veg_pixels 1) * 100
        dead_percent := (dead_veg.count true : ℚ) / (max total_veg_pixels 1) * 100 } }

/-! ## Embedding of the tile-result records and of
`ScalableForestProcessor._aggregate_tile_statistics`

Source: `src/ghost_forest_watcher/src/scalable_processor.py`, lines 468-495.
A worker's result dict (`_process_tile_worker`, lines 114-127) carries the
tile id, a status string, and — for completed tiles — the statistics dict,
the tile area and the output directory; for failed tiles, an error message.
-/

/-- The `status` value of a tile result dict: `'completed'` or `'failed'`. -/
inductive TileStatus where
  | completed
  | failed
deriving DecidableEq, Repr

/-- A worker result dict. Keys that are present only on one status are
`Option` fields, mirroring `'statistics' in result` checks and
`result.get('area_km2', 0)` defaults in the source. -/
structure TileResultRec where
  tile_id : Nat
  status : TileStatus
  statistics : Option HealthStats := none
  area_km2 : Option ℚ := none
  output_dir : Option String := none
  error : Option String := none
deriving DecidableEq

/-- The statistics dicts of the completed results, in list order — exactly the
results that pass the source's
`if result['status'] == 'completed' and 'statistics' in result` filter. -/
def completed_stats (results : List TileResultRec) : List HealthStats :=
  results.filterMap fun r => if r.status = .completed then r.statistics else none

/-- The aggregated-statistics dict produced by `_aggregate_tile_statistics`. -/
structure AggregatedStats where
  healthy_pixels : Nat
  stressed_pixels : Nat
  declining_pixels : Nat
  dead_pixels : Nat
  total_vegetation_pixels : Nat
  healthy_percent : ℚ
  stressed_percent : ℚ
  declining_percent : ℚ
  dead_percent : ℚ
deriving DecidableEq

/-- `_aggregate_tile_statistics(results)` from `scalable_processor.py:468-495`:
sum each category's pixel count and the vegetation-pixel count over completed
results, then derive percentages, guarding the `total_vegetation_pixels > 0`
division. -/
def _aggregate_tile_statistics (results : List TileResultRec) : AggregatedStats :=
  let cs := completed_stats results
  let healthy := (cs.map (·.healthy_pixels)).sum
  let stressed := (cs.map (·.stressed_pixels)).sum
  let declining := (cs.map (·.declining_pixels)).sum
  let dead := (cs.map (·.dead_pixels)).sum
  let total_vegetation_pixels := (cs.map (·.total_vegetation_pixels)).sum
  let pct : Nat → ℚ := fun pixels =>
    if 0 < total_vegetation_pixels then (pixels : ℚ) / total_vegetation_pixels * 100 else 0
  { healthy_pixels := healthy
    stressed_pixels := stressed
    declining_pixels := declining
    dead_pixels := dead
    total_vegetation_pixels := total_vegetation_pixels
    healthy_percent := pct healthy
    stressed_percent := pct stressed
    declining_percent := pct declining
    dead_percent := pct dead }

/-! ## Embedding of `ScalableForestProcessor.calculate_optimal_tiling`

Source: `scalable_processor.py`, lines 129-269.  The raster's width, height,
affine transform and CRS kind are read from the input GeoTIFF; here they are
explicit arguments.  The pyproj geographic-to-UTM transformer used by
`_calculate_area_km2` is an external collaborator, passed as a function.
Real-valued division (`src.width / tiles_x`) is exact here, so
`int(col * actual_tile_width)` is the integer floor `(col * width) / tiles_x`
and `int(actual_tile_width)` is `width / tiles_x` in `Nat` division.
-/

/-- A `rasterio.windows.Window`: pixel window of a tile. -/
structure Window where
  col_off : Nat
  row_off : Nat
  width : Nat
  height : Nat
deriving DecidableEq, Repr

/-- A north-up affine transform: world x = `c + a * col`, world y =
`f + e * row` (`e` is negative for north-up rasters). -/
structure Affine where
  a : ℚ
  e : ℚ
  c : ℚ
  f : ℚ

/-- Geographic bounds `(left, bottom, right, top)` as returned by
`rasterio.windows.bounds(window, transform)`. -/
structure GeoBounds where
  left : ℚ
  bottom : ℚ
  right : ℚ
  top : ℚ
deriving DecidableEq

/-- `rasterio.windows.bounds(window, src.transform)` for a north-up
transform. -/
def window_bounds (w : Window) (t : Affine) : GeoBounds :=
  { left := t.c + t.a * (w.col_off : ℚ)
    bottom := t.f + t.e * ((w.row_off : ℚ) + (w.height : ℚ))
    right := t.c + t.a * ((w.col_off : ℚ) + (w.width : ℚ))
    top := t.f + t.e * (w.row_off : ℚ) }

/-- `_calculate_area_km2(bounds, crs)` (`scalable_processor.py:242-260`):
for a geographic CRS, transform the two bounding corners to UTM with the
external pyproj transformer `utm` and multiply the absolute side lengths;
for a projected CRS use the bounds directly; divide by 10^6 for km². -/
def _calculate_area_km2 (b : GeoBounds) (is_geographic : Bool)
    (utm : ℚ × ℚ → ℚ × ℚ) : ℚ :=
  if is_geographic then
    let p1 := utm (b.left, b.bottom)
    let p2 := utm (b.right, b.top)
    |p2.1 - p1.1| * |p2.2 - p1.2| / 1000000
  else
    |b.right - b.left| * |b.top - b.bottom| / 1000000

/-- The optional fire-boundary geometry handed to the planner.  The source
treats it as an opaque dict; the rectangle fields are needed only to state
the spec's intended intersection test. -/
structure FireBoundary where
  left : ℚ
  bottom : ℚ
  right : ℚ
  top : ℚ

/-- `_calculate_priority(bounds, fire_boundary)`
(`scalable_processor.py:262-269`): returns medium priority `2`
unconditionally — the geometric intersection with the fire boundary is an
unimplemented TODO in the source. -/
def _calculate_priority (_b : GeoBounds) (fire_boundary : Option FireBoundary) : Nat :=
  match fire_boundary with
  | none => 2
  | some _ => 2

/-- The `TileInfo` dataclass (`scalable_processor.py:129-136`). -/
structure TileInfo where
  id : Nat
  window : Window
  bounds : GeoBounds
  area_km2 : ℚ
  priority : Nat

/-- `pixels_per_tile = (tile_size_mb * 1024**2) // pixel_size_bytes` with
`pixel_size_bytes = 4` (`scalable_processor.py:182-188`). -/
def pixels_per_tile (tile_size_mb : Nat) : Nat := tile_size_mb * 1024 ^ 2 / 4

/-- `tile_dimension = int(math.sqrt(pixels_per_tile))`
(`scalable_processor.py:189`). -/
def tile_dimension (tile_size_mb : Nat) : Nat := Nat.sqrt (pixels_per_tile tile_size_mb)

/-- `math.ceil(a / b)` for the positive integers of the tiling code. -/
def ceil_div (a b : Nat) : Nat := (a + b - 1) / b

/-- `tiles_x = math.ceil(src.width / tile_dimension)`. -/
def tiles_x (w tile_size_mb : Nat) : Nat := ceil_div w (tile_dimension tile_size_mb)

/-- `tiles_y = math.ceil(src.height / tile_dimension)`. -/
def tiles_y (h tile_size_mb : Nat) : Nat := ceil_div h (tile_dimension tile_size_mb)

/-- One axis of a tile window's offset:
`max(0, int(col * actual_tile_width) - overlap_pixels)` where
`actual_tile_width = len / n` in exact arithmetic
(`scalable_processor.py:207-208`).

The source computes `col * actual_tile_width` in IEEE doubles; when
`col * len / n` is an exact integer but `n` does not divide `len`, the float
product can round one below it, making the source's offset one pixel smaller
than this exact floor.  The offset of the first cell (`col = 0`) and of the
last cell (`col = n - 1`, which would require `n` dividing `len` and hence an
exact float quotient) are never affected, and an interior offset one pixel
smaller only widens a window leftward, so the coverage, bounds and
disjointness conclusions proved below are insensitive to this last-bit
difference. -/
def axis_off (len n ov c : Nat) : Nat := c * len / n - ov

/-- One axis of a tile window's extent:
`min(int(actual_tile_width) + 2 * overlap_pixels, len - off)`
(`scalable_processor.py:210-213`). -/
def axis_len (len n ov c : Nat) : Nat :=
  min (len / n + 2 * ov) (len - axis_off len n ov c)

/-- The pixel window of grid cell `(row, col)` (`scalable_processor.py:206-215`). -/
def tile_window (w h tx ty ov c r : Nat) : Window :=
  { col_off := axis_off w tx ov c
    row_off := axis_off h ty ov r
    width := axis_len w tx ov c
    height := axis_len h ty ov r }

/-- The `TileInfo` built for grid cell `(row, col)`
(`scalable_processor.py:206-232`); `tile_id = row * tiles_x + col` is the
value of the raster-scan counter when the cell is visited. -/
def mk_tile (w h tx ty ov : Nat) (tr : Affine) (is_geographic : Bool)
    (utm : ℚ × ℚ → ℚ × ℚ) (fb : Option FireBoundary) (r c : Nat) : TileInfo :=
  let win := tile_window w h tx ty ov c r
  let bnd := window_bounds win tr
  { id := r * tx + c
    window := win
    bounds := bnd
    area_km2 := _calculate_area_km2 bnd is_geographic utm
    priority := _calculate_priority bnd fb }

/-- The tile list in raster-scan construction order, before the priority
sort: the `for row ... for col ...` double loop of
`scalable_processor.py:204-234`. -/
def raw_tiles (w h dim ov : Nat) (tr : Affine) (is_geographic : Bool)
    (utm : ℚ × ℚ → ℚ × ℚ) (fb : Option FireBoundary) : List TileInfo :=
  let tx := ceil_div w dim
  let ty := ceil_div h dim
  (List.range ty).flatMap fun r =>
    (List.range tx).map fun c => mk_tile w h tx ty ov tr is_geographic utm fb r c

/-- Stable insertion of a tile into a priority-sorted list: a tile goes in
front of the first strictly-lower-priority tile, after all
earlier-constructed tiles of equal priority. -/
def insert_by_priority (t : TileInfo) : List TileInfo → List TileInfo
  | [] => [t]
  | u :: us =>
      if t.priority ≤ u.priority then t :: u :: us else u :: insert_by_priority t us

/-- `tiles.sort(key=lambda t: t.priority)` (`scalable_processor.py:237`):
Python's sort is stable, so any stable sort on the priority key — here,
insertion sort — models it. -/
def sort_by_priority : List TileInfo → List TileInfo
  | [] => []
  | t :: ts => insert_by_priority t (sort_by_priority ts)

/-- `calculate_optimal_tiling` (`scalable_processor.py:167-240`): derive the
tile dimension from the memory budget, build the raster-scan tile list, and
sort it by priority. -/
def calculate_optimal_tiling (w h : Nat) (tr : Affine) (is_geographic : Bool)
    (utm : ℚ × ℚ → ℚ × ℚ) (tile_size_mb ov : Nat) (fb : Option FireBoundary) :
    List TileInfo :=
  sort_by_priority (raw_tiles w h (tile_dimension tile_size_mb) ov tr is_geographic utm fb)

/-! ## Embedding of the dispatch loop of
`ScalableForestProcessor.process_large_area`

Source: `scalable_processor.py`, lines 361-466.  One future is submitted per
planned tile; `as_completed` yields each future exactly once, in completion
order.  `future.result(...)` either returns the worker's result dict (the
worker catches its own exceptions and returns a `'failed'` dict, lines
122-127) or raises (worker-process crash, out-of-memory kill, pool
breakdown, timeout).  An outcome below records which of the two happened for
one future.
-/

/-- The outcome of one `future.result(timeout=300)` call in the collection
loop: either the worker's returned result dict, or a raised exception with
its message. -/
inductive FutureOutcome where
  | ok (result : TileResultRec)
  | exc (message : String)
deriving DecidableEq

/-- One iteration of the `for future in as_completed(futures)` loop body
(`scalable_processor.py:427-440`), acting on the
`(results, completed_tiles, failed_tiles)` state: a returned dict is appended
to `results` and counted by its status; a raised exception is only logged and
counted in `failed_tiles` — nothing is appended. -/
def collect_step (acc : List TileResultRec × Nat × Nat) (o : FutureOutcome) :
    List TileResultRec × Nat × Nat :=
  match o with
  | .ok r =>
      (acc.1 ++ [r],
       (if r.status = .completed then acc.2.1 + 1 else acc.2.1),
       (if r.status = .completed then acc.2.2 else acc.2.2 + 1))
  | .exc _ => (acc.1, acc.2.1, acc.2.2 + 1)

/-- The whole collection loop, folded over the outcomes in completion order. -/
def collect_results (outcomes : List FutureOutcome) : List TileResultRec × Nat × Nat :=
  outcomes.foldl collect_step ([], 0, 0)

/-- The result dicts of the futures that returned normally, in completion
order. -/
def ok_results (outcomes : List FutureOutcome) : List TileResultRec :=
  outcomes.filterMap fun o => match o with | .ok r => some r | .exc _ => none

/-- Whether an outcome is a normally-returned dict with status `'completed'`. -/
def is_completed_outcome (o : FutureOutcome) : Bool :=
  match o with
  | .ok r => r.status = .completed
  | .exc _ => false

/-- Number of outcomes counted in `completed_tiles`. -/
def n_completed (outcomes : List FutureOutcome) : Nat :=
  outcomes.countP is_completed_outcome

/-- Number of outcomes counted in `failed_tiles` (failed dicts plus raised
exceptions). -/
def n_collect_failed (outcomes : List FutureOutcome) : Nat :=
  outcomes.countP fun o => !is_completed_outcome o

/-- Whether an outcome is a raised exception. -/
def is_exc (o : FutureOutcome) : Bool :=
  match o with
  | .ok _ => false
  | .exc _ => true

/-- Number of futures whose `result` call raised. -/
def n_exc (outcomes : List FutureOutcome) : Nat :=
  outcomes.countP is_exc

/-- The `processing_summary` + `aggregated_statistics` + `tile_results`
record of `process_large_area` (`scalable_processor.py:449-459`). -/
structure RunSummary where
  total_tiles : Nat
  completed_tiles : Nat
  failed_tiles : Nat
  success_rate : ℚ
  total_area_km2 : ℚ
  aggregated_statistics : AggregatedStats
  tile_results : List TileResultRec

/-- `process_large_area` after tiling: dispatch the planned tiles, collect the
future outcomes in completion order, aggregate, and assemble the summary
(`scalable_processor.py:406-466`).  The planned tile list fixes the number of
submitted futures; `outcomes` is the completion sequence of those futures. -/
def process_large_area (tiles : List TileInfo) (outcomes : List FutureOutcome) :
    RunSummary :=
  let c := collect_results outcomes
  let results := c.1
  let completed_tiles := c.2.1
  let failed_tiles := c.2.2
  let total_area :=
    ((results.filter fun r => r.status = .completed).map fun r => r.area_km2.getD 0).sum
  { total_tiles := tiles.length
    completed_tiles := completed_tiles
    failed_tiles := failed_tiles
    success_rate := (completed_tiles : ℚ) / (tiles.length : ℚ) * 100
    total_area_km2 := total_area
    aggregated_statistics := _aggregate_tile_statistics results
    tile_results := results }

/-! ## Field equations for the aggregator -/

/-- The aggregated healthy count is the sum over completed statistics. -/
lemma agg_healthy_pixels (results : List TileResultRec) :
    (_aggregate_tile_statistics results).healthy_pixels =
      ((completed_stats results).map (·.healthy_pixels)).sum := rfl

/-- The aggregated stressed count is the sum over completed statistics. -/
lemma agg_stressed_pixels (results : List TileResultRec) :
    (_aggregate_tile_statistics results).stressed_pixels =
      ((completed_stats results).map (·.stressed_pixels)).sum := rfl

/-- The aggregated declining count is the sum over completed statistics. -/
lemma agg_declining_pixels (results : List TileResultRec) :
    (_aggregate_tile_statistics results).declining_pixels =
      ((completed_stats results).map (·.declining_pixels)).sum := rfl

/-- The aggregated dead count is the sum over completed statistics. -/
lemma agg_dead_pixels (results : List TileResultRec) :
    (_aggregate_tile_statistics results).dead_pixels =
      ((completed_stats results).map (·.dead_pixels)).sum := rfl

/-- The aggregated vegetation-pixel count is the sum of the per-tile
`total_vegetation_pixels` fields over completed statistics. -/
lemma agg_total_vegetation_pixels (results : List TileResultRec) :
    (_aggregate_tile_statistics results).total_vegetation_pixels =
      ((completed_stats results).map (·.total_vegetation_pixels)).sum := rfl

/-- The healthy percentage as the source's guarded division. -/
lemma agg_healthy_percent (results : List TileResultRec) :
    (_aggregate_tile_statistics results).healthy_percent =
      if 0 < (_aggregate_tile_statistics results).total_vegetation_pixels then
        ((_aggregate_tile_statistics results).healthy_pixels : ℚ) /
          ((_aggregate_tile_statistics results).total_vegetation_pixels : ℚ) * 100
      else 0 := rfl

/-- The stressed percentage as the source's guarded division. -/
lemma agg_stressed_percent (results : List TileResultRec) :
    (_aggregate_tile_statistics results).stressed_percent =
      if 0 < (_aggregate_tile_statistics results).total_vegetation_pixels then
        ((_aggregate_tile_statistics results).stressed_pixels : ℚ) /
          ((_aggregate_tile_statistics results).total_vegetation_pixels : ℚ) * 100
      else 0 := rfl

/-- The declining percentage as the source's guarded division. -/
lemma agg_declining_percent (results : List TileResultRec) :
    (_aggregate_tile_statistics results).declining_percent =
      if 0 < (_aggregate_tile_statistics results).total_vegetation_pixels then
        ((_aggregate_tile_statistics results).declining_pixels : ℚ) /
          ((_aggregate_tile_statistics results).total_vegetation_pixels : ℚ) * 100
      else 0 := rfl

/-- The dead percentage as the source's guarded division. -/
lemma agg_dead_percent (results : List TileResultRec) :
    (_aggregate_tile_statistics results).dead_percent =
      if 0 < (_aggregate_tile_statistics results).total_vegetation_pixels then
        ((_aggregate_tile_statistics results).dead_pixels : ℚ) /
          ((_aggregate_tile_statistics results).total_vegetation_pixels : ℚ) * 100
      else 0 := rfl

/-! ## Sample records used by witnesses and counterexamples -/

/-- A per-tile statistics record with the scenario counts 80/15/4/1 over 100
vegetation pixels. -/
def sample_stats : HealthStats :=
  { total_vegetation_pixels := 100
    healthy_pixels := 80
    stressed_pixels := 15
    declining_pixels := 4
    dead_pixels := 1
    healthy_percent := 80
    stressed_percent := 15
    declining_percent := 4
    dead_percent := 1 }

/-- A completed worker result dict for tile `i`. -/
def sample_completed (i : Nat) : TileResultRec :=
  { tile_id := i
    status := .completed
    statistics := some sample_stats
    area_km2 := some 1
    output_dir := some "outputs/tile"
    error := none }

/-- A failed worker result dict for tile `i`, as returned by the worker's
own exception handler. -/
def sample_failed (i : Nat) : TileResultRec :=
  { tile_id := i
    status := .failed
    statistics := none
    area_km2 := none
    output_dir := none
    error := some "RGB conversion failed" }

/-! ## Claim C5 — aggregation is order-independent -/

/-- C5: for every list of tile results and every permutation of that list,
`_aggregate_tile_statistics` applied to the permuted list equals
`_aggregate_tile_statistics` applied to the original list. -/
theorem aggregate_perm_invariant (l l' : List TileResultRec) (h : l.Perm l') :
    _aggregate_tile_statistics l = _aggregate_tile_statistics l' := by
  have hcs : (completed_stats l).Perm (completed_stats l') := h.filterMap _
  have h1 := (hcs.map (·.healthy_pixels)).sum_eq
  have h2 := (hcs.map (·.stressed_pixels)).sum_eq
  have h3 := (hcs.map (·.declining_pixels)).sum_eq
  have h4 := (hcs.map (·.dead_pixels)).sum_eq
  have h5 := (hcs.map (·.total_vegetation_pixels)).sum_eq
  simp only [_aggregate_tile_statistics, h1, h2, h3, h4, h5]

/-- Witness for C5: swapping a completed and a failed result leaves the
aggregate unchanged. -/
theorem aggregate_perm_invariant_witness :
    _aggregate_tile_statistics [sample_failed 1, sample_completed 0] =
      _aggregate_tile_statistics [sample_completed 0, sample_failed 1] :=
  aggregate_perm_invariant _ _ (List.Perm.swap (sample_completed 0) (sample_failed 1) [])

/-! ## Claim C6 — zero vegetation never divides by zero -/

/-- C6: whenever the summed vegetation-pixel count over completed tiles is
zero (in particular when every tile failed), every aggregated category
percentage is `0`: the guarded branch is taken and no division by the zero
total happens. -/
theorem aggregate_zero_vegetation (results : List TileResultRec)
    (h : (_aggregate_tile_statistics results).total_vegetation_pixels = 0) :
    (_aggregate_tile_statistics results).healthy_percent = 0 ∧
    (_aggregate_tile_statistics results).stressed_percent = 0 ∧
    (_aggregate_tile_statistics results).declining_percent = 0 ∧
    (_aggregate_tile_statistics results).dead_percent = 0 := by
  rw [agg_healthy_percent, agg_stressed_percent, agg_declining_percent, agg_dead_percent, h]
  simp

/-- Witness for C6: aggregating a result set where every tile failed takes
the zero-vegetation branch for all four percentages. -/
theorem aggregate_zero_vegetation_witness :
    (_aggregate_tile_statistics [sample_failed 0, sample_failed 1]).healthy_percent = 0 ∧
    (_aggregate_tile_statistics [sample_failed 0, sample_failed 1]).stressed_percent = 0 ∧
    (_aggregate_tile_statistics [sample_failed 0, sample_failed 1]).declining_percent = 0 ∧
    (_aggregate_tile_statistics [sample_failed 0, sample_failed 1]).dead_percent = 0 :=
  aggregate_zero_vegetation _ (by decide)

/-! ## Claim C3 — percentage closure -/

/-- The per-tile invariant that `classify_vegetation_health` guarantees for
every statistics dict it emits: the vegetation-pixel total equals the sum of
the four category counts. -/
def stats_sum_ok : Option HealthStats → Prop
  | none => True
  | some s =>
      s.total_vegetation_pixels =
        s.healthy_pixels + s.stressed_pixels + s.declining_pixels + s.dead_pixels

instance : DecidablePred stats_sum_ok
  | none => isTrue trivial
  | some _ => inferInstanceAs (Decidable (_ = _))

/-- The vegetation-pixel count recorded in a result dict (`0` when the
statistics key is absent). -/
def veg_count (r : TileResultRec) : Nat :=
  match r.statistics with
  | some s => s.total_vegetation_pixels
  | none => 0

/-- Summing the per-tile totals equals summing the four category sums, given
the per-tile invariant. -/
lemma sum_totals_eq_sum_categories (cs : List HealthStats)
    (hcs : ∀ s ∈ cs, s.total_vegetation_pixels =
      s.healthy_pixels + s.stressed_pixels + s.declining_pixels + s.dead_pixels) :
    (cs.map (·.total_vegetation_pixels)).sum =
      (cs.map (·.healthy_pixels)).sum + (cs.map (·.stressed_pixels)).sum +
        (cs.map (·.declining_pixels)).sum + (cs.map (·.dead_pixels)).sum := by
  induction cs with
  | nil => simp
  | cons s t ih =>
    have h1 := hcs s (by simp)
    have h2 := ih fun x hx => hcs x (by simp [hx])
    simp only [List.map_cons, List.sum_cons, h1, h2]
    omega

/-- The statement of percentage closure for one result set: each aggregated
percentage is the category sum divided by the sum of all four category sums,
times 100, and the four percentages add up to exactly 100. -/
def percentage_closure (results : List TileResultRec) : Prop :=
  ((_aggregate_tile_statistics results).healthy_percent =
    ((_aggregate_tile_statistics results).healthy_pixels : ℚ) /
      (((_aggregate_tile_statistics results).healthy_pixels +
        (_aggregate_tile_statistics results).stressed_pixels +
        (_aggregate_tile_statistics results).declining_pixels +
        (_aggregate_tile_statistics results).dead_pixels : Nat) : ℚ) * 100) ∧
  ((_aggregate_tile_statistics results).stressed_percent =
    ((_aggregate_tile_statistics results).stressed_pixels : ℚ) /
      (((_aggregate_tile_statistics results).healthy_pixels +
        (_aggregate_tile_statistics results).stressed_pixels +
        (_aggregate_tile_statistics results).declining_pixels +
        (_aggregate_tile_statistics results).dead_pixels : Nat) : ℚ) * 100) ∧
  ((_aggregate_tile_statistics results).declining_percent =
    ((_aggregate_tile_statistics results).declining_pixels : ℚ) /
      (((_aggregate_tile_statistics results).healthy_pixels +
        (_aggregate_tile_statistics results).stressed_pixels +
        (_aggregate_tile_statistics results).declining_pixels +
        (_aggregate_tile_statistics results).dead_pixels : Nat) : ℚ) * 100) ∧
  ((_aggregate_tile_statistics results).dead_percent =
    ((_aggregate_tile_statistics results).dead_pixels : ℚ) /
      (((_aggregate_tile_statistics results).healthy_pixels +
        (_aggregate_tile_statistics results).stressed_pixels +
        (_aggregate_tile_statistics results).declining_pixels +
        (_aggregate_tile_statistics results).dead_pixels : Nat) : ℚ) * 100) ∧
  ((_aggregate_tile_statistics results).healthy_percent +
    (_aggregate_tile_statistics results).stressed_percent +
    (_aggregate_tile_statistics results).declining_percent +
    (_aggregate_tile_statistics results).dead_percent = 100)

/-- C3: for every result set whose completed statistics satisfy the per-tile
invariant (which `classify_vegetation_health` guarantees, see
`classify_total_eq_sum`) and which contains at least one completed tile with
non-zero vegetation pixels, the aggregator computes each category's
percentage as that category's summed count divided by the sum of all four
category sums, times 100, and the four percentages sum to exactly 100. -/
theorem aggregate_percentage_closure (results : List TileResultRec)
    (hinv : ∀ r ∈ results, r.status = .completed → stats_sum_ok r.statistics)
    (hpos : ∃ r ∈ results, r.status = .completed ∧ 0 < veg_count r) :
    percentage_closure results := by
  have hcs_inv : ∀ s ∈ completed_stats results,
      s.total_vegetation_pixels =
        s.healthy_pixels + s.stressed_pixels + s.declining_pixels + s.dead_pixels := by
    intro s hs
    rw [completed_stats, List.mem_filterMap] at hs
    obtain ⟨r, hr, hif⟩ := hs
    by_cases hcomp : r.status = .completed
    · rw [if_pos hcomp] at hif
      have := hinv r hr hcomp
      rw [hif] at this
      exact this
    · rw [if_neg hcomp] at hif
      exact absurd hif (by simp)
  have hT : (_aggregate_tile_statistics results).total_vegetation_pixels =
      (_aggregate_tile_statistics results).healthy_pixels +
        (_aggregate_tile_statistics results).stressed_pixels +
        (_aggregate_tile_statistics results).declining_pixels +
        (_aggregate_tile_statistics results).dead_pixels := by
    rw [agg_total_vegetation_pixels, agg_healthy_pixels, agg_stressed_pixels,
      agg_declining_pixels, agg_dead_pixels]
    exact sum_totals_eq_sum_categories _ hcs_inv
  have hTpos : 0 < (_aggregate_tile_statistics results).total_vegetation_pixels := by
    obtain ⟨r, hr, hcomp, hv⟩ := hpos
    obtain ⟨s, hstat⟩ : ∃ s, r.statistics = some s := by
      cases hst : r.statistics with
      | none => rw [veg_count, hst] at hv; exact absurd hv (by simp)
      | some s => exact ⟨s, rfl⟩
    have hmem : s ∈ completed_stats results := by
      rw [completed_stats, List.mem_filterMap]
      exact ⟨r, hr, by rw [if_pos hcomp, hstat]⟩
    have hle : s.total_vegetation_pixels ≤
        ((completed_stats results).map (·.total_vegetation_pixels)).sum :=
      List.single_le_sum (fun x _ => Nat.zero_le x) _
        (List.mem_map.mpr ⟨s, hmem, rfl⟩)
    have hv' : 0 < s.total_vegetation_pixels := by
      simpa [veg_count, hstat] using hv
    rw [agg_total_vegetation_pixels]
    omega
  have hTne : (((_aggregate_tile_statistics results).total_vegetation_pixels : ℚ)) ≠ 0 :=
    Nat.cast_ne_zero.mpr (Nat.pos_iff_ne_zero.mp hTpos)
  refine ⟨?_, ?_, ?_, ?_, ?_⟩
  · rw [agg_healthy_percent, if_pos hTpos, ← hT]
  · rw [agg_stressed_percent, if_pos hTpos, ← hT]
  · rw [agg_declining_percent, if_pos hTpos, ← hT]
  · rw [agg_dead_percent, if_pos hTpos, ← hT]
  · rw [agg_healthy_percent, agg_stressed_percent, agg_declining_percent,
      agg_dead_percent, if_pos hTpos, if_pos hTpos, if_pos hTpos, if_pos hTpos]
    have hsum : (((_aggregate_tile_statistics results).healthy_pixels : ℚ) +
        ((_aggregate_tile_statistics results).stressed_pixels : ℚ) +
        ((_aggregate_tile_statistics results).declining_pixels : ℚ) +
        ((_aggregate_tile_statistics results).dead_pixels : ℚ)) =
        (((_aggregate_tile_statistics results).total_vegetation_pixels : ℚ)) := by
      rw [hT]; push_cast; ring
    calc ((_aggregate_tile_statistics results).healthy_pixels : ℚ) /
          ((_aggregate_tile_statistics results).total_vegetation_pixels : ℚ) * 100 +
        ((_aggregate_tile_statistics results).stressed_pixels : ℚ) /
          ((_aggregate_tile_statistics results).total_vegetation_pixels : ℚ) * 100 +
        ((_aggregate_tile_statistics results).declining_pixels : ℚ) /
          ((_aggregate_tile_statistics results).total_vegetation_pixels : ℚ) * 100 +
        ((_aggregate_tile_statistics results).dead_pixels : ℚ) /
          ((_aggregate_tile_statistics results).total_vegetation_pixels : ℚ) * 100
        = (((_aggregate_tile_statistics results).healthy_pixels : ℚ) +
            ((_aggregate_tile_statistics results).stressed_pixels : ℚ) +
            ((_aggregate_tile_statistics results).declining_pixels : ℚ) +
            ((_aggregate_tile_statistics results).dead_pixels : ℚ)) /
          ((_aggregate_tile_statistics results).total_vegetation_pixels : ℚ) * 100 := by
          ring
      _ = ((_aggregate_tile_statistics results).total_vegetation_pixels : ℚ) /
            ((_aggregate_tile_statistics results).total_vegetation_pixels : ℚ) * 100 := by
          rw [hsum]
      _ = 100 := by rw [div_self hTne]; ring

/-- Witness for C3: a single completed tile with the 80/15/4/1 statistics
satisfies the hypotheses, so its aggregate percentages close to 100. -/
theorem aggregate_percentage_closure_witness :
    percentage_closure [sample_completed 0, sample_failed 1] :=
  aggregate_percentage_closure _ (by decide) (by decide)

/-! ## Claim C10 — per-tile classification stays inside the vegetation mask -/

/-- Field equation: the returned vegetation mask is the combined mask. -/
lemma classify_masks_vegetation (ndvi : List ℚ) (veg : List Bool) :
    (classify_vegetation_health ndvi ⟨veg⟩).masks.vegetation = veg := rfl

/-- Field equation: the healthy mask. -/
lemma classify_masks_healthy (ndvi : List ℚ) (veg : List Bool) :
    (classify_vegetation_health ndvi ⟨veg⟩).masks.healthy =
      (ndvi.zip veg).map is_healthy_pixel := rfl

/-- Field equation: the stressed mask. -/
lemma classify_masks_stressed (ndvi : List ℚ) (veg : List Bool) :
    (classify_vegetation_health ndvi ⟨veg⟩).masks.stressed =
      (ndvi.zip veg).map is_stressed_pixel := rfl

/-- Field equation: the declining mask. -/
lemma classify_masks_declining (ndvi : List ℚ) (veg : List Bool) :
    (classify_vegetation_health ndvi ⟨veg⟩).masks.declining =
      (ndvi.zip veg).map is_declining_pixel := rfl

/-- Field equation: the dead mask. -/
lemma classify_masks_dead (ndvi : List ℚ) (veg : List Bool) :
    (classify_vegetation_health ndvi ⟨veg⟩).masks.dead =
      (ndvi.zip veg).map is_dead_pixel := rfl

/-- Field equation: each count is the count of its mask, and the vegetation
total counts the combined mask. -/
lemma classify_stats_counts (ndvi : List ℚ) (veg : List Bool) :
    (classify_vegetation_health ndvi ⟨veg⟩).statistics.healthy_pixels =
        ((ndvi.zip veg).map is_healthy_pixel).count true ∧
      (classify_vegetation_health ndvi ⟨veg⟩).statistics.stressed_pixels =
        ((ndvi.zip veg).map is_stressed_pixel).count true ∧
      (classify_vegetation_health ndvi ⟨veg⟩).statistics.declining_pixels =
        ((ndvi.zip veg).map is_declining_pixel).count true ∧
      (classify_vegetation_health ndvi ⟨veg⟩).statistics.dead_pixels =
        ((ndvi.zip veg).map is_dead_pixel).count true ∧
      (classify_vegetation_health ndvi ⟨veg⟩).statistics.total_vegetation_pixels =
        veg.count true :=
  ⟨rfl, rfl, rfl, rfl, rfl⟩

/-- Counting `true` in a mapped boolean list is `countP` of the map. -/
lemma count_true_map {α : Type} (l : List α) (f : α → Bool) :
    (l.map f).count true = l.countP f := by
  induction l with
  | nil => rfl
  | cons a t ih =>
    rw [List.map_cons, List.count_cons, List.countP_cons, ih]
    cases h : f a <;> simp [h]

/-- Pointwise lifting of a relation to the maps of one list. -/
lemma forall2_map_map {α : Type} (R : Bool → Bool → Prop) (f g : α → Bool)
    (h : ∀ a, R (f a) (g a)) (l : List α) :
    List.Forall₂ R (l.map f) (l.map g) := by
  induction l with
  | nil => exact List.Forall₂.nil
  | cons a t ih => exact List.Forall₂.cons (h a) ih

/-- A classified pixel is a vegetation pixel (healthy case). -/
lemma is_healthy_pixel_veg (p : HealthPixel) : is_healthy_pixel p = true → p.2 = true := by
  intro h
  simp only [is_healthy_pixel, Bool.and_eq_true, decide_eq_true_eq] at h
  exact h.1

/-- A healthy pixel's NDVI exceeds the healthy threshold. -/
lemma is_healthy_pixel_gt (p : HealthPixel) (h : is_healthy_pixel p = true) :
    healthy_threshold < p.1 := by
  simp only [is_healthy_pixel, Bool.and_eq_true, decide_eq_true_eq] at h
  exact h.2

/-- A classified pixel is a vegetation pixel (stressed case). -/
lemma is_stressed_pixel_veg (p : HealthPixel) : is_stressed_pixel p = true → p.2 = true := by
  intro h
  simp only [is_stressed_pixel, Bool.and_eq_true, decide_eq_true_eq] at h
  exact h.1.1

/-- A stressed pixel's NDVI range. -/
lemma is_stressed_pixel_range (p : HealthPixel) (h : is_stressed_pixel p = true) :
    p.1 ≤ healthy_threshold ∧ stressed_threshold < p.1 := by
  simp only [is_stressed_pixel, Bool.and_eq_true, decide_eq_true_eq] at h
  exact ⟨h.1.2, h.2⟩

/-- A classified pixel is a vegetation pixel (declining case). -/
lemma is_declining_pixel_veg (p : HealthPixel) : is_declining_pixel p = true → p.2 = true := by
  intro h
  simp only [is_declining_pixel, Bool.and_eq_true, decide_eq_true_eq] at h
  exact h.1.1

/-- A declining pixel's NDVI range. -/
lemma is_declining_pixel_range (p : HealthPixel) (h : is_declining_pixel p = true) :
    p.1 ≤ stressed_threshold ∧ dead_threshold < p.1 := by
  simp only [is_declining_pixel, Bool.and_eq_true, decide_eq_true_eq] at h
  exact ⟨h.1.2, h.2⟩

/-- A classified pixel is a vegetation pixel (dead case). -/
lemma is_dead_pixel_veg (p : HealthPixel) : is_dead_pixel p = true → p.2 = true := by
  intro h
  simp only [is_dead_pixel, Bool.and_eq_true, decide_eq_true_eq] at h
  exact h.1

/-- A dead pixel's NDVI bound. -/
lemma is_dead_pixel_le (p : HealthPixel) (h : is_dead_pixel p = true) :
    p.1 ≤ dead_threshold := by
  simp only [is_dead_pixel, Bool.and_eq_true, decide_eq_true_eq] at h
  exact h.2

/-- Healthy and stressed exclude each other on every pixel. -/
lemma healthy_stressed_excl (p : HealthPixel) :
    ¬(is_healthy_pixel p = true ∧ is_stressed_pixel p = true) := by
  rintro ⟨h1, h2⟩
  have a1 := is_healthy_pixel_gt p h1
  have a2 := (is_stressed_pixel_range p h2).1
  exact absurd a1 (not_lt.mpr a2)

/-- Healthy and declining exclude each other on every pixel. -/
lemma healthy_declining_excl (p : HealthPixel) :
    ¬(is_healthy_pixel p = true ∧ is_declining_pixel p = true) := by
  rintro ⟨h1, h2⟩
  have a1 := is_healthy_pixel_gt p h1
  have a2 := (is_declining_pixel_range p h2).1
  rw [healthy_threshold] at a1
  rw [stressed_threshold] at a2
  linarith

/-- Healthy and dead exclude each other on every pixel. -/
lemma healthy_dead_excl (p : HealthPixel) :
    ¬(is_healthy_pixel p = true ∧ is_dead_pixel p = true) := by
  rintro ⟨h1, h2⟩
  have a1 := is_healthy_pixel_gt p h1
  have a2 := is_dead_pixel_le p h2
  rw [healthy_threshold] at a1
  rw [dead_threshold] at a2
  linarith

/-- Stressed and declining exclude each other on every pixel. -/
lemma stressed_declining_excl (p : HealthPixel) :
    ¬(is_stressed_pixel p = true ∧ is_declining_pixel p = true) := by
  rintro ⟨h1, h2⟩
  have a1 := (is_stressed_pixel_range p h1).2
  have a2 := (is_declining_pixel_range p h2).1
  exact absurd a1 (not_lt.mpr a2)

/-- Stressed and dead exclude each other on every pixel. -/
lemma stressed_dead_excl (p : HealthPixel) :
    ¬(is_stressed_pixel p = true ∧ is_dead_pixel p = true) := by
  rintro ⟨h1, h2⟩
  have a1 := (is_stressed_pixel_range p h1).2
  have a2 := is_dead_pixel_le p h2
  rw [stressed_threshold] at a1
  rw [dead_threshold] at a2
  linarith

/-- Declining and dead exclude each other on every pixel. -/
lemma declining_dead_excl (p : HealthPixel) :
    ¬(is_declining_pixel p = true ∧ is_dead_pixel p = true) := by
  rintro ⟨h1, h2⟩
  have a1 := (is_declining_pixel_range p h1).2
  have a2 := is_dead_pixel_le p h2
  exact absurd a1 (not_lt.mpr a2)

/-- A non-vegetation pixel is in no category. -/
lemma non_veg_no_category (p : HealthPixel) (h : p.2 = false) :
    is_healthy_pixel p = false ∧ is_stressed_pixel p = false ∧
      is_declining_pixel p = false ∧ is_dead_pixel p = false := by
  simp [is_healthy_pixel, is_stressed_pixel, is_declining_pixel, is_dead_pixel, h]

/-- Evaluation of the healthy bit on a vegetation pixel. -/
lemma is_healthy_pixel_eval (q : ℚ) :
    is_healthy_pixel (q, true) = decide (healthy_threshold < q) := by
  simp [is_healthy_pixel]

/-- Evaluation of the stressed bit on a vegetation pixel. -/
lemma is_stressed_pixel_eval (q : ℚ) :
    is_stressed_pixel (q, true) =
      (decide (q ≤ healthy_threshold) && decide (stressed_threshold < q)) := by
  simp [is_stressed_pixel]

/-- Evaluation of the declining bit on a vegetation pixel. -/
lemma is_declining_pixel_eval (q : ℚ) :
    is_declining_pixel (q, true) =
      (decide (q ≤ stressed_threshold) && decide (dead_threshold < q)) := by
  simp [is_declining_pixel]

/-- Evaluation of the dead bit on a vegetation pixel. -/
lemma is_dead_pixel_eval (q : ℚ) :
    is_dead_pixel (q, true) = decide (q ≤ dead_threshold) := by
  simp [is_dead_pixel]

/-- On every vegetation pixel exactly one category bit is set. -/
lemma pixel_bits (q : ℚ) :
    (if is_healthy_pixel (q, true) then (1 : Nat) else 0) +
      (if is_stressed_pixel (q, true) then (1 : Nat) else 0) +
      (if is_declining_pixel (q, true) then (1 : Nat) else 0) +
      (if is_dead_pixel (q, true) then (1 : Nat) else 0) = 1 := by
  rw [is_healthy_pixel_eval, is_stressed_pixel_eval, is_declining_pixel_eval,
    is_dead_pixel_eval]
  simp only [Bool.and_eq_true, decide_eq_true_eq, healthy_threshold,
    stressed_threshold, dead_threshold]
  rcases le_or_lt q (-(3/10) : ℚ) with h3 | h3
  · rw [if_neg (show ¬((1 : ℚ)/10 < q) by linarith),
      if_neg (show ¬(q ≤ (1 : ℚ)/10 ∧ -(1/10 : ℚ) < q) by rintro ⟨-, hb⟩; linarith),
      if_neg (show ¬(q ≤ -(1/10 : ℚ) ∧ -(3/10 : ℚ) < q) by rintro ⟨-, hb⟩; linarith),
      if_pos h3]
  · rcases le_or_lt q (-(1/10) : ℚ) with h2 | h2
    · rw [if_neg (show ¬((1 : ℚ)/10 < q) by linarith),
        if_neg (show ¬(q ≤ (1 : ℚ)/10 ∧ -(1/10 : ℚ) < q) by rintro ⟨-, hb⟩; linarith),
        if_pos (show q ≤ -(1/10 : ℚ) ∧ -(3/10 : ℚ) < q from ⟨h2, h3⟩),
        if_neg (show ¬(q ≤ -(3/10 : ℚ)) by linarith)]
    · rcases le_or_lt q ((1 : ℚ)/10) with h1 | h1
      · rw [if_neg (show ¬((1 : ℚ)/10 < q) by linarith),
          if_pos (show q ≤ (1 : ℚ)/10 ∧ -(1/10 : ℚ) < q from ⟨h1, h2⟩),
          if_neg (show ¬(q ≤ -(1/10 : ℚ) ∧ -(3/10 : ℚ) < q) by rintro ⟨ha, -⟩; linarith),
          if_neg (show ¬(q ≤ -(3/10 : ℚ)) by linarith)]
      · rw [if_pos h1,
          if_neg (show ¬(q ≤ (1 : ℚ)/10 ∧ -(1/10 : ℚ) < q) by rintro ⟨ha, -⟩; linarith),
          if_neg (show ¬(q ≤ -(1/10 : ℚ) ∧ -(3/10 : ℚ) < q) by rintro ⟨ha, -⟩; linarith),
          if_neg (show ¬(q ≤ -(3/10 : ℚ)) by linarith)]

/-- The four category counts partition the vegetation count of the zipped
pixel list. -/
lemma countP_categories (pix : List HealthPixel) :
    pix.countP is_healthy_pixel + pix.countP is_stressed_pixel +
      pix.countP is_declining_pixel + pix.countP is_dead_pixel =
      pix.countP Prod.snd := by
  induction pix with
  | nil => rfl
  | cons p t ih =>
    rcases p with ⟨q, v⟩
    rw [List.countP_cons, List.countP_cons, List.countP_cons, List.countP_cons,
      List.countP_cons]
    cases v with
    | false =>
      have b1 : is_healthy_pixel (q, false) = false := rfl
      have b2 : is_stressed_pixel (q, false) = false := rfl
      have b3 : is_declining_pixel (q, false) = false := rfl
      have b4 : is_dead_pixel (q, false) = false := rfl
      rw [b1, b2, b3, b4]
      simpa using ih
    | true =>
      have hbit := pixel_bits q
      have hsnd : (if Prod.snd ((q, true) : HealthPixel) = true then (1 : Nat) else 0) = 1 :=
        rfl
      omega

/-- The vegetation total equals the sum of the four category counts when the
NDVI band and the combined mask have the same pixel count — the per-tile
invariant used by claim C3. -/
lemma classify_total_eq_sum (ndvi : List ℚ) (veg : List Bool)
    (hlen : ndvi.length = veg.length) :
    (classify_vegetation_health ndvi ⟨veg⟩).statistics.total_vegetation_pixels =
      (classify_vegetation_health ndvi ⟨veg⟩).statistics.healthy_pixels +
        (classify_vegetation_health ndvi ⟨veg⟩).statistics.stressed_pixels +
        (classify_vegetation_health ndvi ⟨veg⟩).statistics.declining_pixels +
        (classify_vegetation_health ndvi ⟨veg⟩).statistics.dead_pixels := by
  obtain ⟨e1, e2, e3, e4, e5⟩ := classify_stats_counts ndvi veg
  have hveg : ((ndvi.zip veg).map Prod.snd) = veg :=
    List.map_snd_zip ndvi veg (le_of_eq hlen.symm)
  have hcount : veg.count true = ((ndvi.zip veg).map Prod.snd).count true := by
    rw [hveg]
  rw [e1, e2, e3, e4, e5, hcount, count_true_map, count_true_map, count_true_map,
    count_true_map, count_true_map]
  exact (countP_categories (ndvi.zip veg)).symm

/-- A category mask marks only pixels marked by the vegetation mask. -/
def mask_subset (m v : List Bool) : Prop :=
  List.Forall₂ (fun a b => a = true → b = true) m v

/-- Two masks never both mark a pixel. -/
def masks_disjoint (m m' : List Bool) : Prop :=
  List.Forall₂ (fun a b => ¬(a = true ∧ b = true)) m m'

/-- Pixels the vegetation mask leaves out are in no category mask. -/
def outside_excluded (v m : List Bool) : Prop :=
  List.Forall₂ (fun b a => b = false → a = false) v m

/-- The property claimed of one tile classification: the four category counts
sum to at most the vegetation total; each category mask is a subset of the
vegetation mask; the category masks are pairwise disjoint; and non-vegetation
pixels belong to no category. -/
def classification_within_vegetation (ndvi : List ℚ) (veg : List Bool) : Prop :=
  ((classify_vegetation_health ndvi ⟨veg⟩).statistics.healthy_pixels +
      (classify_vegetation_health ndvi ⟨veg⟩).statistics.stressed_pixels +
      (classify_vegetation_health ndvi ⟨veg⟩).statistics.declining_pixels +
      (classify_vegetation_health ndvi ⟨veg⟩).statistics.dead_pixels ≤
      (classify_vegetation_health ndvi ⟨veg⟩).statistics.total_vegetation_pixels) ∧
  mask_subset (classify_vegetation_health ndvi ⟨veg⟩).masks.healthy
    (classify_vegetation_health ndvi ⟨veg⟩).masks.vegetation ∧
  mask_subset (classify_vegetation_health ndvi ⟨veg⟩).masks.stressed
    (classify_vegetation_health ndvi ⟨veg⟩).masks.vegetation ∧
  mask_subset (classify_vegetation_health ndvi ⟨veg⟩).masks.declining
    (classify_vegetation_health ndvi ⟨veg⟩).masks.vegetation ∧
  mask_subset (classify_vegetation_health ndvi ⟨veg⟩).masks.dead
    (classify_vegetation_health ndvi ⟨veg⟩).masks.vegetation ∧
  masks_disjoint (classify_vegetation_health ndvi ⟨veg⟩).masks.healthy
    (classify_vegetation_health ndvi ⟨veg⟩).masks.stressed ∧
  masks_disjoint (classify_vegetation_health ndvi ⟨veg⟩).masks.healthy
    (classify_vegetation_health ndvi ⟨veg⟩).masks.declining ∧
  masks_disjoint (classify_vegetation_health ndvi ⟨veg⟩).masks.healthy
    (classify_vegetation_health ndvi ⟨veg⟩).masks.dead ∧
  masks_disjoint (classify_vegetation_health ndvi ⟨veg⟩).masks.stressed
    (classify_vegetation_health ndvi ⟨veg⟩).masks.declining ∧
  masks_disjoint (classify_vegetation_health ndvi ⟨veg⟩).masks.stressed
    (classify_vegetation_health ndvi ⟨veg⟩).masks.dead ∧
  masks_disjoint (classify_vegetation_health ndvi ⟨veg⟩).masks.declining
    (classify_vegetation_health ndvi ⟨veg⟩).masks.dead ∧
  outside_excluded (classify_vegetation_health ndvi ⟨veg⟩).masks.vegetation
    (classify_vegetation_health ndvi ⟨veg⟩).masks.healthy ∧
  outside_excluded (classify_vegetation_health ndvi ⟨veg⟩).masks.vegetation
    (classify_vegetation_health ndvi ⟨veg⟩).masks.stressed ∧
  outside_excluded (classify_vegetation_health ndvi ⟨veg⟩).masks.vegetation
    (classify_vegetation_health ndvi ⟨veg⟩).masks.declining ∧
  outside_excluded (classify_vegetation_health ndvi ⟨veg⟩).masks.vegetation
    (classify_vegetation_health ndvi ⟨veg⟩).masks.dead

/-- C10: for every tile classification, the sum of the four category pixel
counts is at most the vegetation-mask total; each category mask is contained
in the vegetation mask; the categories are pairwise disjoint; and pixels
outside the vegetation mask belong to no category. -/
theorem classify_vegetation_health_within_mask (ndvi : List ℚ) (veg : List Bool)
    (hlen : ndvi.length = veg.length) :
    classification_within_vegetation ndvi veg := by
  have hveg : ((ndvi.zip veg).map Prod.snd) = veg :=
    List.map_snd_zip ndvi veg (le_of_eq hlen.symm)
  refine ⟨le_of_eq (classify_total_eq_sum ndvi veg hlen).symm, ?_, ?_, ?_, ?_,
    ?_, ?_, ?_, ?_, ?_, ?_, ?_, ?_, ?_, ?_⟩
  · rw [mask_subset, classify_masks_healthy, classify_masks_vegetation]
    nth_rewrite 2 [← hveg]
    exact forall2_map_map (fun a b => a = true → b = true) is_healthy_pixel Prod.snd
      is_healthy_pixel_veg _
  · rw [mask_subset, classify_masks_stressed, classify_masks_vegetation]
    nth_rewrite 2 [← hveg]
    exact forall2_map_map (fun a b => a = true → b = true) is_stressed_pixel Prod.snd
      is_stressed_pixel_veg _
  · rw [mask_subset, classify_masks_declining, classify_masks_vegetation]
    nth_rewrite 2 [← hveg]
    exact forall2_map_map (fun a b => a = true → b = true) is_declining_pixel Prod.snd
      is_declining_pixel_veg _
  · rw [mask_subset, classify_masks_dead, classify_masks_vegetation]
    nth_rewrite 2 [← hveg]
    exact forall2_map_map (fun a b => a = true → b = true) is_dead_pixel Prod.snd
      is_dead_pixel_veg _
  · rw [masks_disjoint, classify_masks_healthy, classify_masks_stressed]
    exact forall2_map_map (fun a b => ¬(a = true ∧ b = true)) is_healthy_pixel
      is_stressed_pixel healthy_stressed_excl _
  · rw [masks_disjoint, classify_masks_healthy, classify_masks_declining]
    exact forall2_map_map (fun a b => ¬(a = true ∧ b = true)) is_healthy_pixel
      is_declining_pixel healthy_declining_excl _
  · rw [masks_disjoint, classify_masks_healthy, classify_masks_dead]
    exact forall2_map_map (fun a b => ¬(a = true ∧ b = true)) is_healthy_pixel
      is_dead_pixel healthy_dead_excl _
  · rw [masks_disjoint, classify_masks_stressed, classify_masks_declining]
    exact forall2_map_map (fun a b => ¬(a = true ∧ b = true)) is_stressed_pixel
      is_declining_pixel stressed_declining_excl _
  · rw [masks_disjoint, classify_masks_stressed, classify_masks_dead]
    exact forall2_map_map (fun a b => ¬(a = true ∧ b = true)) is_stressed_pixel
      is_dead_pixel stressed_dead_excl _
  · rw [masks_disjoint, classify_masks_declining, classify_masks_dead]
    exact forall2_map_map (fun a b => ¬(a = true ∧ b = true)) is_declining_pixel
      is_dead_pixel declining_dead_excl _
  · rw [outside_excluded, classify_masks_vegetation, classify_masks_healthy]
    nth_rewrite 1 [← hveg]
    exact forall2_map_map (fun b a => b = false → a = false) Prod.snd is_healthy_pixel
      (fun p hp => (non_veg_no_category p hp).1) _
  · rw [outside_excluded, classify_masks_vegetation, classify_masks_stressed]
    nth_rewrite 1 [← hveg]
    exact forall2_map_map (fun b a => b = false → a = false) Prod.snd is_stressed_pixel
      (fun p hp => (non_veg_no_category p hp).2.1) _
  · rw [outside_excluded, classify_masks_vegetation, classify_masks_declining]
    nth_rewrite 1 [← hveg]
    exact forall2_map_map (fun b a => b = false → a = false) Prod.snd is_declining_pixel
      (fun p hp => (non_veg_no_category p hp).2.2.1) _
  · rw [outside_excluded, classify_masks_vegetation, classify_masks_dead]
    nth_rewrite 1 [← hveg]
    exact forall2_map_map (fun b a => b = false → a = false) Prod.snd is_dead_pixel
      (fun p hp => (non_veg_no_category p hp).2.2.2) _

/-- Witness for C10: a two-pixel tile with one healthy vegetation pixel and
one dead vegetation pixel. -/
theorem classify_vegetation_health_within_mask_witness :
    classification_within_vegetation [1/2, -(2/5)] [true, true] :=
  classify_vegetation_health_within_mask _ _ (by decide)

/-! ## Planner lemmas -/

/-- The default 1 MB budget gives the tile dimension 512 (`sqrt(262144)`). -/
lemma tile_dimension_one : tile_dimension 1 = 512 := by
  have h : pixels_per_tile 1 = 512 * 512 := by norm_num [pixels_per_tile]
  rw [tile_dimension, h]
  exact Nat.sqrt_eq' 512

/-- Inserting into a list of equal-priority tiles puts the tile in front. -/
lemma insert_by_priority_two (t : TileInfo) (l : List TileInfo) (ht : t.priority = 2)
    (hl : ∀ u ∈ l, u.priority = 2) : insert_by_priority t l = t :: l := by
  cases l with
  | nil => rfl
  | cons u us =>
    have hle : t.priority ≤ u.priority := by rw [ht, hl u (by simp)]
    simp only [insert_by_priority, if_pos hle]

/-- Sorting a list of equal-priority tiles is the identity (stability). -/
lemma sort_by_priority_two (l : List TileInfo) (hl : ∀ u ∈ l, u.priority = 2) :
    sort_by_priority l = l := by
  induction l with
  | nil => rfl
  | cons t ts ih =>
    have hts : ∀ u ∈ ts, u.priority = 2 := fun u hu => hl u (by simp [hu])
    show insert_by_priority t (sort_by_priority ts) = t :: ts
    rw [ih hts, insert_by_priority_two t ts (hl t (by simp)) hts]

/-- The id assigned to grid cell `(r, c)`. -/
lemma mk_tile_id (w h tx ty ov : Nat) (tr : Affine) (geo : Bool)
    (utm : ℚ × ℚ → ℚ × ℚ) (fb : Option FireBoundary) (r c : Nat) :
    (mk_tile w h tx ty ov tr geo utm fb r c).id = r * tx + c := rfl

/-- The window assigned to grid cell `(r, c)`. -/
lemma mk_tile_window (w h tx ty ov : Nat) (tr : Affine) (geo : Bool)
    (utm : ℚ × ℚ → ℚ × ℚ) (fb : Option FireBoundary) (r c : Nat) :
    (mk_tile w h tx ty ov tr geo utm fb r c).window = tile_window w h tx ty ov c r := rfl

/-- Every planned tile has priority `2`: the priority stub never looks at the
fire boundary. -/
lemma mk_tile_priority (w h tx ty ov : Nat) (tr : Affine) (geo : Bool)
    (utm : ℚ × ℚ → ℚ × ℚ) (fb : Option FireBoundary) (r c : Nat) :
    (mk_tile w h tx ty ov tr geo utm fb r c).priority = 2 := by
  cases fb <;> rfl

/-- Membership in the raster-scan tile list. -/
lemma mem_raw_tiles_iff (w h dim ov : Nat) (tr : Affine) (geo : Bool)
    (utm : ℚ × ℚ → ℚ × ℚ) (fb : Option FireBoundary) (t : TileInfo) :
    t ∈ raw_tiles w h dim ov tr geo utm fb ↔
      ∃ r, r < ceil_div h dim ∧ ∃ c, c < ceil_div w dim ∧
        t = mk_tile w h (ceil_div w dim) (ceil_div h dim) ov tr geo utm fb r c := by
  simp only [raw_tiles, List.mem_flatMap, List.mem_map, List.mem_range]
  constructor
  · rintro ⟨r, hr, c, hc, rfl⟩
    exact ⟨r, hr, c, hc, rfl⟩
  · rintro ⟨r, hr, c, hc, rfl⟩
    exact ⟨r, hr, c, hc, rfl⟩

/-- All raster-scan tiles carry priority `2`. -/
lemma raw_tiles_priority (w h dim ov : Nat) (tr : Affine) (geo : Bool)
    (utm : ℚ × ℚ → ℚ × ℚ) (fb : Option FireBoundary) :
    ∀ t ∈ raw_tiles w h dim ov tr geo utm fb, t.priority = 2 := by
  intro t ht
  rw [mem_raw_tiles_iff] at ht
  obtain ⟨r, _, c, _, rfl⟩ := ht
  exact mk_tile_priority w h _ _ ov tr geo utm fb r c

/-- Because every priority is the constant `2`, the stable priority sort is
the identity and the planner returns the raster-scan list unchanged. -/
lemma calculate_optimal_tiling_eq (w h : Nat) (tr : Affine) (geo : Bool)
    (utm : ℚ × ℚ → ℚ × ℚ) (mb ov : Nat) (fb : Option FireBoundary) :
    calculate_optimal_tiling w h tr geo utm mb ov fb =
      raw_tiles w h (tile_dimension mb) ov tr geo utm fb :=
  sort_by_priority_two _ (raw_tiles_priority w h (tile_dimension mb) ov tr geo utm fb)

/-- Flattening the row-major id grid yields the dense range. -/
lemma flatMap_range_id (tx ty : Nat) :
    ((List.range ty).flatMap fun r => (List.range tx).map fun c => r * tx + c) =
      List.range (ty * tx) := by
  induction ty with
  | zero => simp
  | succ n ih =>
    rw [List.range_succ, List.flatMap_append, ih, Nat.succ_mul, List.range_add]
    simp

/-- The raster-scan ids are exactly `0, 1, ..., N-1` in order. -/
lemma raw_tiles_map_id (w h dim ov : Nat) (tr : Affine) (geo : Bool)
    (utm : ℚ × ℚ → ℚ × ℚ) (fb : Option FireBoundary) :
    (raw_tiles w h dim ov tr geo utm fb).map (·.id) =
      List.range (ceil_div h dim * ceil_div w dim) := by
  unfold raw_tiles
  rw [List.map_flatMap]
  have hinner : (fun r => ((List.range (ceil_div w dim)).map fun c =>
      mk_tile w h (ceil_div w dim) (ceil_div h dim) ov tr geo utm fb r c).map (·.id)) =
      fun r => (List.range (ceil_div w dim)).map fun c => r * ceil_div w dim + c := by
    funext r
    rw [List.map_map]
    rfl
  rw [hinner, flatMap_range_id]

/-- A tile's offset along one axis never exceeds the raster length. -/
lemma axis_off_le (len n ov c : Nat) (hc : c < n) : axis_off len n ov c ≤ len := by
  have hn : 0 < n := lt_of_le_of_lt (Nat.zero_le c) hc
  have h1 : c * len / n ≤ n * len / n :=
    Nat.div_le_div_right (Nat.mul_le_mul_right len hc.le)
  rw [Nat.mul_div_cancel_left len hn] at h1
  unfold axis_off
  omega

/-- A tile's window stays inside the raster along one axis. -/
lemma axis_off_add_len_le (len n ov c : Nat) (hc : c < n) :
    axis_off len n ov c + axis_len len n ov c ≤ len := by
  have h1 := axis_off_le len n ov c hc
  unfold axis_len
  omega

/-- The first grid cell starts at offset `0` even with overlap padding. -/
lemma axis_off_zero (len n ov : Nat) : axis_off len n ov 0 = 0 := by
  unfold axis_off
  simp

/-! ## Claim C9 — planned windows stay inside the raster -/

/-- The property claimed of every planned window: offsets plus extents stay
inside the raster, and the tile with id `0` (the top-left tile) starts at
pixel `(0, 0)` despite overlap padding.  Offsets are `Nat`, so the source's
`max(0, ...)` clamp to non-negative offsets is part of the statement. -/
def windows_within_bounds (w h : Nat) (L : List TileInfo) : Prop :=
  ∀ t ∈ L,
    t.window.col_off + t.window.width ≤ w ∧
    t.window.row_off + t.window.height ≤ h ∧
    (t.id = 0 → t.window.col_off = 0 ∧ t.window.row_off = 0)

/-- C9: for every raster size, memory budget, overlap and boundary, every
planned tile window lies inside `[0, w) x [0, h)`, and the top-left tile's
window starts at pixel `(0, 0)`. -/
theorem tiling_windows_within_bounds (w h : Nat) (tr : Affine) (geo : Bool)
    (utm : ℚ × ℚ → ℚ × ℚ) (mb ov : Nat) (fb : Option FireBoundary) :
    windows_within_bounds w h (calculate_optimal_tiling w h tr geo utm mb ov fb) := by
  intro t ht
  rw [calculate_optimal_tiling_eq, mem_raw_tiles_iff] at ht
  obtain ⟨r, hr, c, hc, rfl⟩ := ht
  have htx : 0 < ceil_div w (tile_dimension mb) := lt_of_le_of_lt (Nat.zero_le c) hc
  refine ⟨axis_off_add_len_le w _ ov c hc, axis_off_add_len_le h _ ov r hr, ?_⟩
  intro hid
  have hid' : r * ceil_div w (tile_dimension mb) + c = 0 := hid
  have hc0 : c = 0 := by omega
  have hrtx : r * ceil_div w (tile_dimension mb) = 0 := by omega
  have hr0 : r = 0 := by
    rcases Nat.mul_eq_zero.mp hrtx with h0 | h0
    · exact h0
    · exact absurd h0 (Nat.pos_iff_ne_zero.mp htx)
  subst hc0
  subst hr0
  exact ⟨axis_off_zero w _ ov, axis_off_zero h _ ov⟩

/-- Witness for C9 at a concrete run: the 1000 x 1000 raster with a 1 MB
budget and 10-pixel overlap. -/
theorem tiling_windows_within_bounds_witness :
    windows_within_bounds 1000 1000
      (calculate_optimal_tiling 1000 1000 ⟨1, -1, 0, 0⟩ false (fun p => p) 1 10 none) :=
  tiling_windows_within_bounds 1000 1000 ⟨1, -1, 0, 0⟩ false (fun p => p) 1 10 none

/-! ## Claim C8 — dense raster-scan ids, output sorted by priority then id -/

/-- The output ordering claimed of the planner: non-decreasing priority,
with ties broken by ascending id. -/
def sorted_by_priority_then_id (L : List TileInfo) : Prop :=
  L.Pairwise fun t u => t.priority < u.priority ∨ (t.priority = u.priority ∧ t.id < u.id)

/-- C8: the tile ids are assigned as the dense set `0, ..., N-1` in raster
scan order before the priority resort, the returned list is the raster-scan
list resorted (here: unchanged, priorities being uniform), its ids are still
the dense range, and it is sorted by priority then id. -/
theorem tiling_ids_dense_and_sorted (w h : Nat) (tr : Affine) (geo : Bool)
    (utm : ℚ × ℚ → ℚ × ℚ) (mb ov : Nat) (fb : Option FireBoundary) :
    (raw_tiles w h (tile_dimension mb) ov tr geo utm fb).map (·.id) =
        List.range (tiles_y h mb * tiles_x w mb) ∧
      (calculate_optimal_tiling w h tr geo utm mb ov fb).map (·.id) =
        List.range (tiles_y h mb * tiles_x w mb) ∧
      sorted_by_priority_then_id (calculate_optimal_tiling w h tr geo utm mb ov fb) := by
  have hids := raw_tiles_map_id w h (tile_dimension mb) ov tr geo utm fb
  have heq := calculate_optimal_tiling_eq w h tr geo utm mb ov fb
  refine ⟨hids, by rw [heq]; exact hids, ?_⟩
  rw [sorted_by_priority_then_id, heq]
  have hlt : ((raw_tiles w h (tile_dimension mb) ov tr geo utm fb).map (·.id)).Pairwise
      (· < ·) := by
    rw [hids]
    exact List.pairwise_lt_range _
  rw [List.pairwise_map] at hlt
  refine hlt.imp_of_mem ?_
  intro t u ht hu hid
  right
  refine ⟨?_, hid⟩
  rw [raw_tiles_priority w h (tile_dimension mb) ov tr geo utm fb t ht,
    raw_tiles_priority w h (tile_dimension mb) ov tr geo utm fb u hu]

/-! ## Coverage of the raster by the planned windows (claim C2) -/

/-- Floor division almost distributes over a successor step:
`(c+1)*len/n` exceeds `c*len/n + len/n` by at most one. -/
lemma div_succ_le (len n c : Nat) (hn : 0 < n) :
    (c + 1) * len / n ≤ c * len / n + len / n + 1 := by
  have h : (c * len + len) / n =
      c * len / n + len / n + if n ≤ c * len % n + len % n then 1 else 0 :=
    Nat.add_div hn
  have h2 : (c * len + len) / n ≤ c * len / n + len / n + 1 := by
    rw [h]; split <;> omega
  rw [Nat.succ_mul]
  exact h2

/-- The unclamped end of the last grid cell reaches the raster edge up to one
pixel: `len ≤ (n-1)*len/n + len/n + 1`. -/
lemma le_last_end (len n : Nat) (hn : 0 < n) :
    len ≤ (n - 1) * len / n + len / n + 1 := by
  have h2 : len ≤ n * len := Nat.le_mul_of_pos_left len hn
  have h3 : (n - 1) * len = n * len - len := by
    rw [Nat.sub_mul, one_mul]
  have h1 : (n - 1) * len + len = n * len := by omega
  have h4 : ((n - 1) * len + len) / n ≤ (n - 1) * len / n + len / n + 1 := by
    have h := Nat.add_div (a := (n - 1) * len) (b := len) hn
    rw [h]; split <;> omega
  rw [h1, Nat.mul_div_cancel_left len hn] at h4
  exact h4

/-- The clamped end of a tile window, as a minimum with the raster edge. -/
lemma axis_end_min (len n ov c : Nat) (hc : c < n) :
    axis_off len n ov c + axis_len len n ov c =
      min (axis_off len n ov c + (len / n + 2 * ov)) len := by
  have h1 := axis_off_le len n ov c hc
  unfold axis_len
  omega

/-- With at least one pixel of overlap, consecutive tile windows chain: the
next window starts no later than the current window ends. -/
lemma axis_off_succ_le_end (len n ov c : Nat) (hn : 0 < n) (hov : 1 ≤ ov)
    (hc : c + 1 < n) :
    axis_off len n ov (c + 1) ≤ axis_off len n ov c + axis_len len n ov c := by
  have hsucc := div_succ_le len n c hn
  have hle : (c + 1) * len / n ≤ len := by
    have h1 : (c + 1) * len / n ≤ n * len / n :=
      Nat.div_le_div_right (Nat.mul_le_mul_right len (by omega))
    rw [Nat.mul_div_cancel_left len hn] at h1
    exact h1
  have hend := axis_end_min len n ov c (by omega)
  unfold axis_off at *
  omega

/-- The largest index up to a bound satisfying a predicate that holds at 0,
packaged with its maximality. -/
lemma nat_find_greatest_package (P : Nat → Prop) [DecidablePred P] (b : Nat) (h0 : P 0) :
    ∃ c, c ≤ b ∧ P c ∧ ∀ k, c < k → k ≤ b → ¬ P k := by
  refine ⟨Nat.findGreatest P b, Nat.findGreatest_le b, ?_, ?_⟩
  · exact Nat.findGreatest_spec (Nat.zero_le b) h0
  · intro k hk hkb
    exact Nat.findGreatest_is_greatest hk hkb

/-- One-dimensional coverage: with positive overlap every coordinate of the
raster axis lies in some tile window of that axis. -/
lemma axis_cover (len n ov x : Nat) (hn : 0 < n) (hov : 1 ≤ ov) (hx : x < len) :
    ∃ c, c < n ∧ axis_off len n ov c ≤ x ∧
      x < axis_off len n ov c + axis_len len n ov c := by
  have hP0 : axis_off len n ov 0 ≤ x := by
    rw [axis_off_zero]; exact Nat.zero_le x
  obtain ⟨c, hcle, hPc0, hmax0⟩ :=
    nat_find_greatest_package (fun k => axis_off len n ov k ≤ x) (n - 1) hP0
  have hPc : axis_off len n ov c ≤ x := hPc0
  have hmax : ∀ k, c < k → k ≤ n - 1 → ¬ axis_off len n ov k ≤ x := hmax0
  refine ⟨c, by omega, hPc, ?_⟩
  by_cases hlast : c = n - 1
  · have hreach := le_last_end len n hn
    have hend := axis_end_min len n ov c (by omega)
    rw [hlast] at hend ⊢
    unfold axis_off at hend ⊢
    omega
  · have hnot : ¬ axis_off len n ov (c + 1) ≤ x := hmax (c + 1) (by omega) (by omega)
    have hchain := axis_off_succ_le_end len n ov c hn hov (by omega)
    omega

/-- A pixel lies in a window. -/
def window_contains (win : Window) (x y : Nat) : Prop :=
  win.col_off ≤ x ∧ x < win.col_off + win.width ∧
    win.row_off ≤ y ∧ y < win.row_off + win.height

instance (win : Window) (x y : Nat) : Decidable (window_contains win x y) := by
  unfold window_contains
  infer_instance

/-- Full coverage: every raster pixel lies in some planned tile's window. -/
def planner_covers (w h : Nat) (L : List TileInfo) : Prop :=
  ∀ x y, x < w → y < h → ∃ t ∈ L, window_contains t.window x y

/-- The non-overlap core of grid cell `(r, c)`: its window with
`overlap_pixels = 0`. -/
def core_window (w h tx ty r c : Nat) : Window :=
  tile_window w h tx ty 0 c r

/-- The non-overlap core of a planned tile, recovered from its raster-scan
id. -/
def core_of (w h mb : Nat) (t : TileInfo) : Window :=
  core_window w h (ceil_div w (tile_dimension mb)) (ceil_div h (tile_dimension mb))
    (t.id / ceil_div w (tile_dimension mb)) (t.id % ceil_div w (tile_dimension mb))

/-- No pixel lies in the cores of two distinct planned tiles. -/
def cores_disjoint (w h mb : Nat) (L : List TileInfo) : Prop :=
  ∀ t ∈ L, ∀ u ∈ L, t.id ≠ u.id → ∀ x y,
    ¬ (window_contains (core_of w h mb t) x y ∧ window_contains (core_of w h mb u) x y)

/-- Cores of distinct cells along one axis are separated: the earlier core
ends before the later core starts. -/
lemma axis_core_disjoint (len n c c' : Nat) (hcc : c < c') :
    axis_off len n 0 c + axis_len len n 0 c ≤ axis_off len n 0 c' := by
  have h1 : c * len / n + len / n ≤ (c * len + len) / n :=
    Nat.add_div_le_add_div (c * len) len n
  have h2 : c * len + len = (c + 1) * len := (Nat.succ_mul c len).symm
  rw [h2] at h1
  have h3 : (c + 1) * len / n ≤ c' * len / n :=
    Nat.div_le_div_right (Nat.mul_le_mul_right len hcc)
  have h4 : axis_len len n 0 c ≤ len / n + 2 * 0 := by
    unfold axis_len
    exact Nat.min_le_left _ _
  have h5 : axis_off len n 0 c = c * len / n := Nat.sub_zero _
  have h6 : axis_off len n 0 c' = c' * len / n := Nat.sub_zero _
  calc axis_off len n 0 c + axis_len len n 0 c
      ≤ c * len / n + (len / n + 2 * 0) := by
        rw [h5]; exact Nat.add_le_add_left h4 _
    _ = c * len / n + len / n := by simp
    _ ≤ (c + 1) * len / n := h1
    _ ≤ c' * len / n := h3
    _ = axis_off len n 0 c' := h6.symm

/-- Recovering the grid cell from a raster-scan id. -/
lemma id_div_mod (tx r c : Nat) (hc : c < tx) :
    (r * tx + c) / tx = r ∧ (r * tx + c) % tx = c := by
  have htx : 0 < tx := lt_of_le_of_lt (Nat.zero_le c) hc
  constructor
  · rw [Nat.add_comm, Nat.add_mul_div_right c r htx, Nat.div_eq_of_lt hc]
    omega
  · rw [Nat.add_comm, Nat.add_mul_mod_self_right c r tx, Nat.mod_eq_of_lt hc]

/-- The tile dimension derived from a positive memory budget is positive
(at least 512). -/
lemma tile_dimension_pos (mb : Nat) (hmb : 1 ≤ mb) : 0 < tile_dimension mb := by
  have h1 : pixels_per_tile 1 ≤ pixels_per_tile mb := by
    unfold pixels_per_tile
    exact Nat.div_le_div_right (Nat.mul_le_mul_right _ hmb)
  have h2 := Nat.sqrt_le_sqrt h1
  have h3 : Nat.sqrt (pixels_per_tile 1) = 512 := tile_dimension_one
  show 0 < Nat.sqrt (pixels_per_tile mb)
  omega

/-- A non-empty axis yields at least one grid cell. -/
lemma ceil_div_pos (len dim : Nat) (hl : 1 ≤ len) (hd : 0 < dim) :
    0 < ceil_div len dim := by
  unfold ceil_div
  have h : dim ≤ len + dim - 1 := by omega
  exact (Nat.one_le_div_iff hd).mpr h

/-- C2 (amended): with a positive raster, a positive memory budget and at
least one pixel of overlap, the planned windows cover every raster pixel, and
the non-overlap cores of distinct tiles are pairwise disjoint. -/
theorem tiling_covers_and_cores_disjoint (w h : Nat) (tr : Affine) (geo : Bool)
    (utm : ℚ × ℚ → ℚ × ℚ) (mb ov : Nat) (fb : Option FireBoundary)
    (hw : 1 ≤ w) (hh : 1 ≤ h) (hmb : 1 ≤ mb) (hov : 1 ≤ ov) :
    planner_covers w h (calculate_optimal_tiling w h tr geo utm mb ov fb) ∧
      cores_disjoint w h mb (calculate_optimal_tiling w h tr geo utm mb ov fb) := by
  have hdim := tile_dimension_pos mb hmb
  have htx : 0 < ceil_div w (tile_dimension mb) := ceil_div_pos w _ hw hdim
  have hty : 0 < ceil_div h (tile_dimension mb) := ceil_div_pos h _ hh hdim
  constructor
  · intro x y hx hy
    obtain ⟨c, hc, hcx1, hcx2⟩ := axis_cover w _ ov x htx hov hx
    obtain ⟨r, hr, hry1, hry2⟩ := axis_cover h _ ov y hty hov hy
    refine ⟨mk_tile w h (ceil_div w (tile_dimension mb)) (ceil_div h (tile_dimension mb))
      ov tr geo utm fb r c, ?_, ?_⟩
    · rw [calculate_optimal_tiling_eq, mem_raw_tiles_iff]
      exact ⟨r, hr, c, hc, rfl⟩
    · exact ⟨hcx1, hcx2, hry1, hry2⟩
  · intro t ht u hu hne x y hcont
    rw [calculate_optimal_tiling_eq, mem_raw_tiles_iff] at ht hu
    obtain ⟨r, hr, c, hc, rfl⟩ := ht
    obtain ⟨r', hr', c', hc', rfl⟩ := hu
    obtain ⟨hdiv, hmod⟩ := id_div_mod _ r c hc
    obtain ⟨hdiv', hmod'⟩ := id_div_mod _ r' c' hc'
    simp only [core_of, mk_tile_id] at hcont
    rw [hdiv, hmod, hdiv', hmod'] at hcont
    simp only [mk_tile_id] at hne
    simp only [core_window, tile_window, window_contains] at hcont
    obtain ⟨⟨a1, a2, a3, a4⟩, b1, b2, b3, b4⟩ := hcont
    by_cases hcc : c = c'
    · have hrr : r ≠ r' := by
        intro hreq
        exact hne (by rw [hcc, hreq])
      rcases Nat.lt_or_ge r r' with hlt | hge
      · have hd := axis_core_disjoint h (ceil_div h (tile_dimension mb)) r r' hlt
        omega
      · have hlt' : r' < r := by omega
        have hd := axis_core_disjoint h (ceil_div h (tile_dimension mb)) r' r hlt'
        omega
    · rcases Nat.lt_or_ge c c' with hlt | hge
      · have hd := axis_core_disjoint w (ceil_div w (tile_dimension mb)) c c' hlt
        omega
      · have hlt' : c' < c := by omega
        have hd := axis_core_disjoint w (ceil_div w (tile_dimension mb)) c' c hlt'
        omega

/-- The identity-like transform used in concrete runs:
1-pixel cells anchored at the origin, north-up. -/
def unit_transform : Affine := { a := 1, e := -1, c := 0, f := 0 }

/-- A trivial stand-in for the external pyproj UTM transformer. -/
def unit_utm : ℚ × ℚ → ℚ × ℚ := fun p => p

/-- Witness for C2 (amended) at a concrete run: the 1000 x 1000 raster with
a 1 MB budget and 10-pixel overlap. -/
theorem tiling_covers_witness :
    planner_covers 1000 1000
        (calculate_optimal_tiling 1000 1000 unit_transform false unit_utm 1 10 none) ∧
      cores_disjoint 1000 1000 1
        (calculate_optimal_tiling 1000 1000 unit_transform false unit_utm 1 10 none) :=
  tiling_covers_and_cores_disjoint 1000 1000 unit_transform false unit_utm 1 10 none
    (by norm_num) (by norm_num) (by norm_num) (by norm_num)

/-- Counterexample to C2 as stated: with overlap `0` (a legal, non-negative
overlap) on a 1001 x 1001 raster with a 1 MB budget, the in-range pixel
`(1000, 1000)` lies in no planned window — the planner tiles `2 x 2` cells of
truncated width `500`, so the last pixel column and row are uncovered. -/
theorem tiling_coverage_counterexample :
    1000 < 1001 ∧
      (calculate_optimal_tiling 1001 1001 unit_transform false unit_utm 1 0 none).all
        (fun t => !(decide (window_contains t.window 1000 1000))) = true := by
  have heq : calculate_optimal_tiling 1001 1001 unit_transform false unit_utm 1 0 none =
      sort_by_priority (raw_tiles 1001 1001 512 0 unit_transform false unit_utm none) := by
    unfold calculate_optimal_tiling
    rw [tile_dimension_one]
  refine ⟨by norm_num, ?_⟩
  rw [heq]
  decide

/-! ## Claim C7 — fire-boundary priority -/

/-- Modelled from the spec: the intended test that a tile's geographic bounds
intersect the supplied fire-boundary region — two axis-aligned rectangles
overlap when they overlap on both axes.  The source never implements this
test (`_calculate_priority` is a TODO stub); this definition exists only to
state the spec's contract against the code. -/
def bounds_intersect (b : GeoBounds) (fb : FireBoundary) : Prop :=
  b.left ≤ fb.right ∧ fb.left ≤ b.right ∧ b.bottom ≤ fb.top ∧ fb.bottom ≤ b.top

/-- Every tile of a list carries the stub's constant medium priority. -/
def uniform_priority (L : List TileInfo) : Prop :=
  ∀ t ∈ L, t.priority = 2

/-- C7 (amended): when a fire boundary is supplied, the planner still assigns
the constant priority `2` to every tile — the intersection test is an
unimplemented stub — so the returned list is simply in ascending id order and
intersecting tiles receive no precedence. -/
theorem priority_stub_uniform (w h : Nat) (tr : Affine) (geo : Bool)
    (utm : ℚ × ℚ → ℚ × ℚ) (mb ov : Nat) (fb : FireBoundary) :
    uniform_priority (calculate_optimal_tiling w h tr geo utm mb ov (some fb)) ∧
      (calculate_optimal_tiling w h tr geo utm mb ov (some fb)).map (·.id) =
        List.range (tiles_y h mb * tiles_x w mb) := by
  have heq := calculate_optimal_tiling_eq w h tr geo utm mb ov (some fb)
  constructor
  · intro t ht
    rw [heq] at ht
    exact raw_tiles_priority w h (tile_dimension mb) ov tr geo utm (some fb) t ht
  · rw [heq]
    exact raw_tiles_map_id w h (tile_dimension mb) ov tr geo utm (some fb)

/-- The fire boundary used in the C7 counterexample: a rectangle over world
x in `[600, 700]`, far from the first tile. -/
def cex_fire_boundary : FireBoundary :=
  { left := 600, bottom := -1, right := 700, top := 0 }

/-- A placeholder tile for `List.getD`. -/
def dummy_tile : TileInfo :=
  { id := 0, window := ⟨0, 0, 0, 0⟩, bounds := ⟨0, 0, 0, 0⟩, area_km2 := 0, priority := 0 }

/-- The planner run of the C7 counterexample: a 1001 x 1 pixel strip, 1 MB
budget, no overlap, with a fire boundary supplied — two tiles, of which only
the second intersects the boundary. -/
def cex_strip_tiles : List TileInfo :=
  calculate_optimal_tiling 1001 1 unit_transform false unit_utm 1 0 (some cex_fire_boundary)

/-- Counterexample to C7 as stated: in `cex_strip_tiles` the tile at position
0 does not intersect the supplied fire boundary while the tile at position 1
does, yet the non-intersecting tile is returned first — intersecting tiles
are not ranked before others. -/
theorem priority_region_counterexample :
    cex_strip_tiles.map (·.id) = [0, 1] ∧
      ¬ bounds_intersect (cex_strip_tiles.getD 0 dummy_tile).bounds cex_fire_boundary ∧
      bounds_intersect (cex_strip_tiles.getD 1 dummy_tile).bounds cex_fire_boundary := by
  have heq : cex_strip_tiles =
      sort_by_priority (raw_tiles 1001 1 512 0 unit_transform false unit_utm
        (some cex_fire_boundary)) := by
    unfold cex_strip_tiles calculate_optimal_tiling
    rw [tile_dimension_one]
  have hb0 : (cex_strip_tiles.getD 0 dummy_tile).bounds =
      window_bounds ⟨0, 0, 500, 1⟩ unit_transform := by
    rw [heq]; rfl
  have hb1 : (cex_strip_tiles.getD 1 dummy_tile).bounds =
      window_bounds ⟨500, 0, 500, 1⟩ unit_transform := by
    rw [heq]; rfl
  refine ⟨by rw [heq]; decide, ?_, ?_⟩
  · rw [hb0]
    intro hint
    obtain ⟨-, h2, -, -⟩ := hint
    rw [window_bounds, cex_fire_boundary] at h2
    norm_num [unit_transform] at h2
  · rw [hb1]
    refine ⟨?_, ?_, ?_, ?_⟩ <;>
      norm_num [window_bounds, unit_transform, cex_fire_boundary]

/-! ## Claims C1 and C4 — what the dispatch loop returns -/

/-- The collection fold, from any starting accumulator: returned dicts are
appended in completion order; completed and failed counters accumulate; a
raised exception contributes only to the failed counter. -/
lemma collect_foldl (outcomes : List FutureOutcome) :
    ∀ acc : List TileResultRec × Nat × Nat,
      outcomes.foldl collect_step acc =
        (acc.1 ++ ok_results outcomes, acc.2.1 + n_completed outcomes,
          acc.2.2 + n_collect_failed outcomes) := by
  induction outcomes with
  | nil =>
    intro acc
    simp [ok_results, n_completed, n_collect_failed]
  | cons o os ih =>
    intro acc
    rw [List.foldl_cons, ih]
    cases o with
    | ok r =>
      by_cases hst : r.status = .completed <;>
        simp [collect_step, ok_results, n_completed, n_collect_failed,
          is_completed_outcome, hst, List.countP_cons, List.filterMap_cons] <;>
        omega
    | exc m =>
      simp [collect_step, ok_results, n_completed, n_collect_failed,
        is_completed_outcome, List.countP_cons, List.filterMap_cons]
      omega

/-- The collection loop's final state. -/
lemma collect_results_eq (outcomes : List FutureOutcome) :
    collect_results outcomes =
      (ok_results outcomes, n_completed outcomes, n_collect_failed outcomes) := by
  rw [collect_results, collect_foldl]
  simp

/-- The summary's tile results are exactly the normally-returned dicts, in
completion order. -/
lemma process_tile_results (tiles : List TileInfo) (outcomes : List FutureOutcome) :
    (process_large_area tiles outcomes).tile_results = ok_results outcomes := by
  show (collect_results outcomes).1 = ok_results outcomes
  rw [collect_results_eq]

/-- The summary's failed counter. -/
lemma process_failed_tiles (tiles : List TileInfo) (outcomes : List FutureOutcome) :
    (process_large_area tiles outcomes).failed_tiles = n_collect_failed outcomes := by
  show (collect_results outcomes).2.2 = n_collect_failed outcomes
  rw [collect_results_eq]

/-- The summary's completed counter. -/
lemma process_completed_tiles (tiles : List TileInfo) (outcomes : List FutureOutcome) :
    (process_large_area tiles outcomes).completed_tiles = n_completed outcomes := by
  show (collect_results outcomes).2.1 = n_completed outcomes
  rw [collect_results_eq]

/-- One record per returned future; one lost record per raised future. -/
lemma ok_results_length (outcomes : List FutureOutcome) :
    (ok_results outcomes).length + n_exc outcomes = outcomes.length := by
  induction outcomes with
  | nil => rfl
  | cons o t ih =>
    rw [List.length_cons]
    cases o with
    | ok r =>
      have e1 : ok_results (FutureOutcome.ok r :: t) = r :: ok_results t := rfl
      have e2 : n_exc (FutureOutcome.ok r :: t) = n_exc t := by
        simp [n_exc, is_exc, List.countP_cons]
      rw [e1, e2, List.length_cons]
      omega
    | exc m =>
      have e1 : ok_results (FutureOutcome.exc m :: t) = ok_results t := rfl
      have e2 : n_exc (FutureOutcome.exc m :: t) = n_exc t + 1 := by
        simp [n_exc, is_exc, List.countP_cons]
      rw [e1, e2]
      omega

/-- What the dispatch loop actually guarantees about `tile_results`: exactly
one record per future that returned normally (its tile id included), in
completion order; a future whose `result` call raised contributes only to
`failed_tiles`, and its tile is absent from `tile_results` — no `Failed`
record is synthesized for it. -/
def dispatch_drop_characterization (tiles : List TileInfo)
    (outcomes : List FutureOutcome) : Prop :=
  (process_large_area tiles outcomes).tile_results.map (·.tile_id) =
      (ok_results outcomes).map (·.tile_id) ∧
    (process_large_area tiles outcomes).completed_tiles = n_completed outcomes ∧
    (process_large_area tiles outcomes).failed_tiles = n_collect_failed outcomes ∧
    (process_large_area tiles outcomes).tile_results.length + n_exc outcomes =
      outcomes.length

/-- C1 (amended): for every run, `tile_results` holds exactly the dicts of
the futures that returned normally, in completion order; futures that raise
are only counted in `failed_tiles` and leave no record, so one record is
missing per raised future. -/
theorem dispatcher_drops_raised_futures (tiles : List TileInfo)
    (outcomes : List FutureOutcome) :
    dispatch_drop_characterization tiles outcomes := by
  refine ⟨?_, process_completed_tiles tiles outcomes, process_failed_tiles tiles outcomes, ?_⟩
  · rw [process_tile_results]
  · rw [process_tile_results]
    exact ok_results_length outcomes

/-- The planner run used by the dispatch counterexamples: 1001 x 1001 pixels,
1 MB budget, the default 64-pixel overlap — four planned tiles with ids
`0, 1, 2, 3`. -/
def planned_2x2 : List TileInfo :=
  calculate_optimal_tiling 1001 1001 unit_transform false unit_utm 1 64 none

/-- A completion sequence in which tile 3's worker process crashed: its
future's `result` call raises instead of returning a dict. -/
def crash_outcomes : List FutureOutcome :=
  [.ok (sample_completed 0), .ok (sample_completed 1), .ok (sample_completed 2),
    .exc "worker process terminated abruptly"]

/-- Counterexample to C1 as stated: four tiles are planned and submitted, but
after tile 3's worker crashes the summary holds only three records — tile id
3 appears in no record, and no `Failed` record was synthesized for it (it is
only counted in `failed_tiles`). -/
theorem dispatcher_drop_counterexample :
    planned_2x2.map (·.id) = [0, 1, 2, 3] ∧
      (process_large_area planned_2x2 crash_outcomes).total_tiles = 4 ∧
      (process_large_area planned_2x2 crash_outcomes).tile_results.map (·.tile_id) =
        [0, 1, 2] ∧
      3 ∉ (process_large_area planned_2x2 crash_outcomes).tile_results.map (·.tile_id) ∧
      (process_large_area planned_2x2 crash_outcomes).failed_tiles = 1 := by
  have heq : planned_2x2 =
      sort_by_priority (raw_tiles 1001 1001 512 64 unit_transform false unit_utm none) := by
    unfold planned_2x2 calculate_optimal_tiling
    rw [tile_dimension_one]
  refine ⟨by rw [heq]; decide, ?_, by decide, by decide, by decide⟩
  show planned_2x2.length = 4
  rw [heq]
  decide

/-- C4 (amended): the `tile_results` list of the returned summary is the
workers' returned dicts in completion order — `process_large_area` never
sorts it by tile id. -/
theorem run_summary_results_completion_order (tiles : List TileInfo)
    (outcomes : List FutureOutcome) :
    (process_large_area tiles outcomes).tile_results = ok_results outcomes :=
  process_tile_results tiles outcomes

/-- A completion sequence in which tile 1 finishes before tile 0. -/
def reversed_outcomes : List FutureOutcome :=
  [.ok (sample_completed 1), .ok (sample_completed 0)]

/-- The planner run used by the C4 counterexample: a 1001 x 1 strip with two
tiles. -/
def planned_strip : List TileInfo :=
  calculate_optimal_tiling 1001 1 unit_transform false unit_utm 1 0 none

/-- Counterexample to C4 as stated: when tile 1 completes before tile 0, the
summary's `tile_results` ids are `[1, 0]` — not sorted ascending by tile
id. -/
theorem run_summary_not_sorted_counterexample :
    (process_large_area planned_strip reversed_outcomes).tile_results.map (·.tile_id) =
        [1, 0] ∧
      ¬ List.Sorted (· ≤ ·)
        ((process_large_area planned_strip reversed_outcomes).tile_results.map
          (·.tile_id)) := by
  constructor
  · decide
  · decide

end GhostForest
